import Mathlib

/-!
# lv_slider.h : the slider facade over the bar widget

Shallow embedding of `src/lv_widgets/lv_slider.h`.  The header consists of
`static inline` functions that forward to the bar widget (`lv_bar.h`,
`lv_bar.c`).  The bar is not part of the header, so the slider functions are
embedded over an arbitrary bar implementation `lv_bar_class Obj`; a concrete
instance, built from the written specification of the bar value store, is
given further down and is used wherever a statement depends on what the bar
itself does.

Machine integers: `int16_t` values are `Int`, `uint8_t`/`uint16_t` values are
`Nat`.  The header performs no arithmetic on them (it only compares type codes
and forwards arguments), so no wrap-around can occur in the embedded code.
-/

namespace LvSlider

/-! ## Constants of the header -/

/-- First enumerator of the anonymous enum at lv_slider.h:36-40 (value 0). -/
def LV_SLIDER_TYPE_NORMAL : Nat := 0

/-- Second enumerator of the anonymous enum at lv_slider.h:36-40 (value 1). -/
def LV_SLIDER_TYPE_SYMMETRICAL : Nat := 1

/-- Third enumerator of the anonymous enum at lv_slider.h:36-40 (value 2). -/
def LV_SLIDER_TYPE_RANGE : Nat := 2

/-! ## The bar interface used by the header -/

/-- Everything of `lv_bar.h` that lv_slider.h refers to, taken as a parameter:
the three bar type codes and the ten bar functions.  `Obj` is the state of the
object behind the `lv_obj_t *` handle.  Setters return the new object state;
getters are reads of the object state. `lv_anim_enable_t` is a `Bool`
(`true` = `LV_ANIM_ON`). -/
structure lv_bar_class (Obj : Type) where
  LV_BAR_TYPE_NORMAL : Nat
  LV_BAR_TYPE_SYMMETRICAL : Nat
  LV_BAR_TYPE_CUSTOM : Nat
  lv_bar_set_value : Obj → Int → Bool → Obj
  lv_bar_set_start_value : Obj → Int → Bool → Obj
  lv_bar_set_range : Obj → Int → Int → Obj
  lv_bar_set_anim_time : Obj → Nat → Obj
  lv_bar_set_type : Obj → Nat → Obj
  lv_bar_get_value : Obj → Int
  lv_bar_get_start_value : Obj → Int
  lv_bar_get_min_value : Obj → Int
  lv_bar_get_max_value : Obj → Int
  lv_bar_get_anim_time : Obj → Nat
  lv_bar_get_type : Obj → Nat

/-- The three bar type codes are pairwise different. -/
def lv_bar_class.types_distinct {Obj : Type} (B : lv_bar_class Obj) : Prop :=
  B.LV_BAR_TYPE_NORMAL ≠ B.LV_BAR_TYPE_SYMMETRICAL ∧
  B.LV_BAR_TYPE_NORMAL ≠ B.LV_BAR_TYPE_CUSTOM ∧
  B.LV_BAR_TYPE_SYMMETRICAL ≠ B.LV_BAR_TYPE_CUSTOM

/-- The bar reports the type that was last stored with `lv_bar_set_type`. -/
def lv_bar_class.type_stored {Obj : Type} (B : lv_bar_class Obj) : Prop :=
  ∀ (bar : Obj) (type : Nat), B.lv_bar_get_type (B.lv_bar_set_type bar type) = type

/-! ## The inline functions of lv_slider.h -/

section Header

variable {Obj : Type}

/-- Embedding of lv_slider.h:92-95. -/
def lv_slider_set_value (B : lv_bar_class Obj) (slider : Obj) (value : Int) (anim : Bool) : Obj :=
  B.lv_bar_set_value slider value anim

/-- Embedding of lv_slider.h:103-106. -/
def lv_slider_set_left_value (B : lv_bar_class Obj) (slider : Obj) (left_value : Int)
    (anim : Bool) : Obj :=
  B.lv_bar_set_start_value slider left_value anim

/-- Embedding of lv_slider.h:114-117. -/
def lv_slider_set_range (B : lv_bar_class Obj) (slider : Obj) (min max : Int) : Obj :=
  B.lv_bar_set_range slider min max

/-- Embedding of lv_slider.h:124-127. -/
def lv_slider_set_anim_time (B : lv_bar_class Obj) (slider : Obj) (anim_time : Nat) : Obj :=
  B.lv_bar_set_anim_time slider anim_time

/-- Embedding of lv_slider.h:135-143.  The `if` chain has no final `else`:
when no comparison succeeds the function returns without calling the bar. -/
def lv_slider_set_type (B : lv_bar_class Obj) (slider : Obj) (type : Nat) : Obj :=
  if type = LV_SLIDER_TYPE_NORMAL then
    B.lv_bar_set_type slider B.LV_BAR_TYPE_NORMAL
  else if type = LV_SLIDER_TYPE_SYMMETRICAL then
    B.lv_bar_set_type slider B.LV_BAR_TYPE_SYMMETRICAL
  else if type = LV_SLIDER_TYPE_RANGE then
    B.lv_bar_set_type slider B.LV_BAR_TYPE_CUSTOM
  else
    slider

/-- Embedding of lv_slider.h:154-157. -/
def lv_slider_get_value (B : lv_bar_class Obj) (slider : Obj) : Int :=
  B.lv_bar_get_value slider

/-- Embedding of lv_slider.h:164-167. -/
def lv_slider_get_left_value (B : lv_bar_class Obj) (slider : Obj) : Int :=
  B.lv_bar_get_start_value slider

/-- Embedding of lv_slider.h:174-177. -/
def lv_slider_get_min_value (B : lv_bar_class Obj) (slider : Obj) : Int :=
  B.lv_bar_get_min_value slider

/-- Embedding of lv_slider.h:184-187. -/
def lv_slider_get_max_value (B : lv_bar_class Obj) (slider : Obj) : Int :=
  B.lv_bar_get_max_value slider

/-- Embedding of lv_slider.h:201-204. -/
def lv_slider_get_anim_time (B : lv_bar_class Obj) (slider : Obj) : Nat :=
  B.lv_bar_get_anim_time slider

/-- Embedding of lv_slider.h:211-220. -/
def lv_slider_get_type (B : lv_bar_class Obj) (slider : Obj) : Nat :=
  let type := B.lv_bar_get_type slider
  if type = B.LV_BAR_TYPE_SYMMETRICAL then
    LV_SLIDER_TYPE_SYMMETRICAL
  else if type = B.LV_BAR_TYPE_CUSTOM then
    LV_SLIDER_TYPE_RANGE
  else
    LV_SLIDER_TYPE_NORMAL

/-! ### Sequencing calls of the API

A call of one of the eleven inline functions, its result, and the execution of
a call (state in, state and result out).  A getter call hands back the object
it was given: the header's getters only evaluate a bar getter and return its
result. -/

/-- One call of an inline function of lv_slider.h, with its arguments. -/
inductive lv_slider_call where
  | set_value (value : Int) (anim : Bool)
  | set_left_value (left_value : Int) (anim : Bool)
  | set_range (min max : Int)
  | set_anim_time (anim_time : Nat)
  | set_type (type : Nat)
  | get_value
  | get_left_value
  | get_min_value
  | get_max_value
  | get_anim_time
  | get_type
  deriving DecidableEq, Repr

/-- What a call returns: nothing, an `int16_t`, a `uint16_t` or a `uint8_t`. -/
inductive lv_slider_ret where
  | void
  | i16 (v : Int)
  | u16 (v : Nat)
  | u8 (v : Nat)
  deriving DecidableEq, Repr

/-- Execute one call on a slider. -/
def lv_slider_call.exec (B : lv_bar_class Obj) (slider : Obj) :
    lv_slider_call → Obj × lv_slider_ret
  | .set_value value anim => (lv_slider_set_value B slider value anim, .void)
  | .set_left_value left_value anim => (lv_slider_set_left_value B slider left_value anim, .void)
  | .set_range min max => (lv_slider_set_range B slider min max, .void)
  | .set_anim_time anim_time => (lv_slider_set_anim_time B slider anim_time, .void)
  | .set_type type => (lv_slider_set_type B slider type, .void)
  | .get_value => (slider, .i16 (lv_slider_get_value B slider))
  | .get_left_value => (slider, .i16 (lv_slider_get_left_value B slider))
  | .get_min_value => (slider, .i16 (lv_slider_get_min_value B slider))
  | .get_max_value => (slider, .i16 (lv_slider_get_max_value B slider))
  | .get_anim_time => (slider, .u16 (lv_slider_get_anim_time B slider))
  | .get_type => (slider, .u8 (lv_slider_get_type B slider))

/-- Execute a sequence of calls in order, collecting the results. -/
def lv_slider_run (B : lv_bar_class Obj) (slider : Obj) :
    List lv_slider_call → Obj × List lv_slider_ret
  | [] => (slider, [])
  | c :: cs =>
    let r := c.exec B slider
    let rest := lv_slider_run B r.1 cs
    (rest.1, r.2 :: rest.2)

/-- The five value getters named `get_value`, `get_left_value`,
`get_min_value`, `get_max_value` and `get_anim_time`. -/
def lv_slider_call.is_value_getter : lv_slider_call → Bool
  | .get_value => true
  | .get_left_value => true
  | .get_min_value => true
  | .get_max_value => true
  | .get_anim_time => true
  | _ => false

end Header

/-! ## The object state and the bar value store -/

/-- Modelled from the spec: the rectangle type `lv_area_t` of the geometry
layer (absent from the header), as its four corner coordinates. -/
structure lv_area_t where
  x1 : Int
  y1 : Int
  x2 : Int
  y2 : Int
  deriving DecidableEq, Repr

/-- The value slot the pointer `value_to_set` (lv_slider.h:52) refers to: the
bar's main value or the bar's start value. -/
inductive lv_slider_slot where
  | cur_value
  | start_value
  deriving DecidableEq, Repr

/-- Modelled from the spec: `_lv_bar_data` of lv_bar.h, which the header names
but does not declare.  The bar value store "holds current value, start value
(for range mode), minimum/maximum", the animation time and the bar type. -/
structure lv_bar_t where
  cur_value : Int
  start_value : Int
  min_value : Int
  max_value : Int
  anim_time : Nat
  type : Nat
  deriving DecidableEq, Repr

/-- The slider object, `_lv_slider_data` (lv_slider.h:47-54): the bar data
followed by the fields the macro lists, `style_knob` (a style list, kept as a
list of style identifiers), the two knob areas, `value_to_set` (a null pointer
is `none`) and the two one-bit flags.  There is no type field among them. -/
structure lv_slider_t extends lv_bar_t where
  style_knob : List Nat
  left_knob_area : lv_area_t
  right_knob_area : lv_area_t
  value_to_set : Option lv_slider_slot
  dragging : Bool
  left_knob_focus : Bool
  deriving DecidableEq, Repr

/-- Modelled from the spec: the enumerators of `lv_bar_type_t` in lv_bar.h,
which the header uses but does not declare.  The mapping table of the spec
lists three bar types NORMAL, SYMMETRICAL, CUSTOM; they get the codes 0, 1, 2
in that order. -/
def LV_BAR_TYPE_NORMAL : Nat := 0

/-- Modelled from the spec: second bar type of lv_bar.h, see `LV_BAR_TYPE_NORMAL`. -/
def LV_BAR_TYPE_SYMMETRICAL : Nat := 1

/-- Modelled from the spec: third bar type of lv_bar.h, see `LV_BAR_TYPE_NORMAL`. -/
def LV_BAR_TYPE_CUSTOM : Nat := 2

/-- Modelled from the spec: the "minimum/maximum clamp" of the bar value store
(lv_bar.c is absent): a value above the maximum becomes the maximum, a value
below the minimum becomes the minimum. -/
def lv_bar_clamp (min max value : Int) : Int :=
  if value > max then max else if value < min then min else value

/-- Modelled from the spec: `lv_bar_set_value` of lv_bar.c (absent).  "Sets the
main knob's value"; the store enforces "minimum/maximum clamp, start ≤ value in
range mode".  The `anim` flag selects how the change is shown (at once or over
the animation time); the value committed to the store is the same. -/
def lv_bar_set_value (bar : lv_slider_t) (value : Int) (_anim : Bool) : lv_slider_t :=
  let new_value := lv_bar_clamp bar.min_value bar.max_value value
  let new_value :=
    if bar.type = LV_BAR_TYPE_CUSTOM ∧ new_value < bar.start_value then bar.start_value
    else new_value
  { bar with cur_value := new_value }

/-- Modelled from the spec: `lv_bar_set_start_value` of lv_bar.c (absent).
"Sets the start value (left/lower knob), meaningful only in RANGE type; in
other types this sets an otherwise-unused start value"; the store enforces
"minimum/maximum clamp, start ≤ value in range mode". -/
def lv_bar_set_start_value (bar : lv_slider_t) (start_value : Int) (_anim : Bool) :
    lv_slider_t :=
  let new_value := lv_bar_clamp bar.min_value bar.max_value start_value
  let new_value :=
    if bar.type = LV_BAR_TYPE_CUSTOM ∧ new_value > bar.cur_value then bar.cur_value
    else new_value
  { bar with start_value := new_value }

/-- Modelled from the spec: `lv_bar_set_range` of lv_bar.c (absent).  "Sets
both bounds; existing value(s) are clamped into the new bounds by the store". -/
def lv_bar_set_range (bar : lv_slider_t) (min max : Int) : lv_slider_t :=
  { bar with
    min_value := min
    max_value := max
    cur_value := lv_bar_clamp min max bar.cur_value
    start_value := lv_bar_clamp min max bar.start_value }

/-- Modelled from the spec: `lv_bar_set_anim_time` of lv_bar.c (absent).  "Sets
the duration used by subsequent animated transitions". -/
def lv_bar_set_anim_time (bar : lv_slider_t) (anim_time : Nat) : lv_slider_t :=
  { bar with anim_time := anim_time }

/-- Modelled from the spec: `lv_bar_set_type` of lv_bar.c (absent).  The slider
type is "stored indirectly as the underlying Bar's type". -/
def lv_bar_set_type (bar : lv_slider_t) (type : Nat) : lv_slider_t :=
  { bar with type := type }

/-- Modelled from the spec: the bar of lv_bar.h / lv_bar.c (absent from the
sources) as the spec describes the bar value store; the getters are "pure
reads" of the stored fields. -/
def lv_bar : lv_bar_class lv_slider_t where
  LV_BAR_TYPE_NORMAL := LV_BAR_TYPE_NORMAL
  LV_BAR_TYPE_SYMMETRICAL := LV_BAR_TYPE_SYMMETRICAL
  LV_BAR_TYPE_CUSTOM := LV_BAR_TYPE_CUSTOM
  lv_bar_set_value := lv_bar_set_value
  lv_bar_set_start_value := lv_bar_set_start_value
  lv_bar_set_range := lv_bar_set_range
  lv_bar_set_anim_time := lv_bar_set_anim_time
  lv_bar_set_type := lv_bar_set_type
  lv_bar_get_value := fun bar => bar.cur_value
  lv_bar_get_start_value := fun bar => bar.start_value
  lv_bar_get_min_value := fun bar => bar.min_value
  lv_bar_get_max_value := fun bar => bar.max_value
  lv_bar_get_anim_time := fun bar => bar.anim_time
  lv_bar_get_type := fun bar => bar.type

/-- A slider as the spec describes it right after creation ("knob areas empty,
dragging=false, leftKnobFocus=false, valueToSet=null"), here with range
[0, 100], all values 0 and the given bar type. -/
def lv_slider_sample (type : Nat) : lv_slider_t where
  cur_value := 0
  start_value := 0
  min_value := 0
  max_value := 100
  anim_time := 200
  type := type
  style_knob := []
  left_knob_area := ⟨0, 0, 0, 0⟩
  right_knob_area := ⟨0, 0, 0, 0⟩
  value_to_set := none
  dragging := false
  left_knob_focus := false

/-! ## Drag handling (signal handler of lv_slider.c) -/

/-- Modelled from the spec: the position-to-value mapping of the drag handler
in lv_slider.c (absent).  "The input position is projected onto the slider's
main axis, mapped linearly from the track's pixel extent to the value range
[minimum, maximum], rounded to the nearest integer".  `point` is the projected
position, the track starts at pixel `track_start` and is `track_len` pixels
long; a half is rounded up, and an empty track maps every position to the
minimum. -/
def lv_slider_point_to_value (slider : lv_slider_t) (track_start track_len point : Int) : Int :=
  slider.min_value +
    (2 * ((point - track_start) * (slider.max_value - slider.min_value)) + track_len) /
      (2 * track_len)

/-- Modelled from the spec: the drag-move step of the signal handler in
lv_slider.c (absent).  "A drag-move event received while in IDLE (no active
drag) is ignored"; otherwise the mapped value is "written through valueToSet
via the Bar Value Store's immediate (non-animated) setter.  In RANGE type the
written value is clamped so the left knob's value never exceeds the right
knob's value and vice versa". -/
def lv_slider_drag_move (slider : lv_slider_t) (track_start track_len point : Int) :
    lv_slider_t :=
  match slider.value_to_set with
  | none => slider
  | some lv_slider_slot.start_value =>
    let new_value := lv_slider_point_to_value slider track_start track_len point
    let new_value :=
      if lv_slider_get_type lv_bar slider = LV_SLIDER_TYPE_RANGE ∧
          new_value > lv_slider_get_value lv_bar slider then
        lv_slider_get_value lv_bar slider
      else new_value
    lv_bar_set_start_value slider new_value false
  | some lv_slider_slot.cur_value =>
    let new_value := lv_slider_point_to_value slider track_start track_len point
    let new_value :=
      if lv_slider_get_type lv_bar slider = LV_SLIDER_TYPE_RANGE ∧
          new_value < lv_slider_get_left_value lv_bar slider then
        lv_slider_get_left_value lv_bar slider
      else new_value
    lv_bar_set_value slider new_value false

/-- A drag-move event: pixel start of the track, pixel length of the track and
the projected pointer position. -/
structure lv_slider_move_t where
  track_start : Int
  track_len : Int
  point : Int
  deriving DecidableEq, Repr

/-- Deliver a sequence of drag-move events in arrival order. -/
def lv_slider_drag_moves (slider : lv_slider_t) : List lv_slider_move_t → lv_slider_t
  | [] => slider
  | e :: es =>
    lv_slider_drag_moves (lv_slider_drag_move slider e.track_start e.track_len e.point) es

/-- The range slider of the spec's scenario: range [0, 100], type RANGE, left
value 20, value 80, with a drag in progress on the given knob. -/
def lv_slider_scenario (target : lv_slider_slot) : lv_slider_t :=
  { lv_slider_sample LV_BAR_TYPE_CUSTOM with
    cur_value := 80
    start_value := 20
    value_to_set := some target
    dragging := true }

/-! ## Helper lemmas -/

section Lemmas

variable {Obj : Type}

theorem lv_slider_run_append (B : lv_bar_class Obj) (slider : Obj) (p q : List lv_slider_call) :
    lv_slider_run B slider (p ++ q) =
      ((lv_slider_run B (lv_slider_run B slider p).1 q).1,
        (lv_slider_run B slider p).2 ++ (lv_slider_run B (lv_slider_run B slider p).1 q).2) := by
  induction p generalizing slider with
  | nil => simp [lv_slider_run]
  | cons c cs ih => simp [lv_slider_run, ih]

theorem lv_slider_getter_exec_fst (B : lv_bar_class Obj) (slider : Obj) (g : lv_slider_call)
    (hg : g.is_value_getter = true) : (g.exec B slider).1 = slider := by
  cases g <;> simp_all [lv_slider_call.is_value_getter, lv_slider_call.exec]

theorem lv_slider_run_replicate (B : lv_bar_class Obj) (slider : Obj) (g : lv_slider_call)
    (hg : g.is_value_getter = true) (n : Nat) :
    lv_slider_run B slider (List.replicate n g) =
      (slider, List.replicate n (g.exec B slider).2) := by
  induction n with
  | zero => simp [lv_slider_run]
  | succ k ih =>
    simp [List.replicate_succ, lv_slider_run, lv_slider_getter_exec_fst B slider g hg, ih]

theorem lv_bar_type_stored : lv_bar.type_stored := by
  intro bar type
  rfl

theorem lv_bar_types_distinct : lv_bar.types_distinct := by
  unfold lv_bar_class.types_distinct
  decide

end Lemmas

/-! ## Type mapping -/

section TypeMapping

variable {Obj : Type}

/-- Claim C1.  For each of the three slider types, storing it with
`lv_slider_set_type` and reading it back with `lv_slider_get_type` gives the
same type, on every slider and for every bar whose `lv_bar_get_type` returns
the type last stored by `lv_bar_set_type` (the three bar type codes being
different from each other). -/
theorem lv_slider_type_roundtrip (B : lv_bar_class Obj) (slider : Obj) (type : Nat)
    (hstore : B.type_stored) (hd : B.types_distinct)
    (ht : type = LV_SLIDER_TYPE_NORMAL ∨ type = LV_SLIDER_TYPE_SYMMETRICAL ∨
      type = LV_SLIDER_TYPE_RANGE) :
    lv_slider_get_type B (lv_slider_set_type B slider type) = type := by
  obtain ⟨hns, hnc, hsc⟩ := hd
  rcases ht with h | h | h
  · subst h
    simp [lv_slider_set_type, lv_slider_get_type, hstore _ _, hns, hnc, LV_SLIDER_TYPE_NORMAL]
  · subst h
    simp [lv_slider_set_type, lv_slider_get_type, hstore _ _, LV_SLIDER_TYPE_NORMAL,
      LV_SLIDER_TYPE_SYMMETRICAL]
  · subst h
    simp [lv_slider_set_type, lv_slider_get_type, hstore _ _, hsc.symm, LV_SLIDER_TYPE_NORMAL,
      LV_SLIDER_TYPE_SYMMETRICAL, LV_SLIDER_TYPE_RANGE]

/-- Witness of C1: the round trip for all three types on the bar value store
of the spec. -/
theorem lv_slider_type_roundtrip_witness :
    lv_slider_get_type lv_bar
        (lv_slider_set_type lv_bar (lv_slider_sample LV_BAR_TYPE_CUSTOM) LV_SLIDER_TYPE_NORMAL) =
      LV_SLIDER_TYPE_NORMAL ∧
    lv_slider_get_type lv_bar
        (lv_slider_set_type lv_bar (lv_slider_sample LV_BAR_TYPE_NORMAL)
          LV_SLIDER_TYPE_SYMMETRICAL) = LV_SLIDER_TYPE_SYMMETRICAL ∧
    lv_slider_get_type lv_bar
        (lv_slider_set_type lv_bar (lv_slider_sample LV_BAR_TYPE_NORMAL) LV_SLIDER_TYPE_RANGE) =
      LV_SLIDER_TYPE_RANGE :=
  ⟨lv_slider_type_roundtrip lv_bar _ _ lv_bar_type_stored lv_bar_types_distinct (Or.inl rfl),
   lv_slider_type_roundtrip lv_bar _ _ lv_bar_type_stored lv_bar_types_distinct
     (Or.inr (Or.inl rfl)),
   lv_slider_type_roundtrip lv_bar _ _ lv_bar_type_stored lv_bar_types_distinct
     (Or.inr (Or.inr rfl))⟩

/-- Claim C2.  `lv_slider_set_type` is the mapping table: for NORMAL it is
exactly the bar call `lv_bar_set_type(slider, LV_BAR_TYPE_NORMAL)`, for
SYMMETRICAL the call with `LV_BAR_TYPE_SYMMETRICAL`, for RANGE the call with
`LV_BAR_TYPE_CUSTOM`, and nothing else is done to the object.  The bar types
reached from the three slider types are pairwise distinct, and the slider has
no type of its own: `lv_slider_get_type` is determined by the bar's type
alone. -/
theorem lv_slider_set_type_mapping (B : lv_bar_class Obj) (slider : Obj)
    (hstore : B.type_stored) (hd : B.types_distinct) :
    lv_slider_set_type B slider LV_SLIDER_TYPE_NORMAL =
        B.lv_bar_set_type slider B.LV_BAR_TYPE_NORMAL ∧
    lv_slider_set_type B slider LV_SLIDER_TYPE_SYMMETRICAL =
        B.lv_bar_set_type slider B.LV_BAR_TYPE_SYMMETRICAL ∧
    lv_slider_set_type B slider LV_SLIDER_TYPE_RANGE =
        B.lv_bar_set_type slider B.LV_BAR_TYPE_CUSTOM ∧
    B.lv_bar_get_type (lv_slider_set_type B slider LV_SLIDER_TYPE_NORMAL) ≠
        B.lv_bar_get_type (lv_slider_set_type B slider LV_SLIDER_TYPE_SYMMETRICAL) ∧
    B.lv_bar_get_type (lv_slider_set_type B slider LV_SLIDER_TYPE_NORMAL) ≠
        B.lv_bar_get_type (lv_slider_set_type B slider LV_SLIDER_TYPE_RANGE) ∧
    B.lv_bar_get_type (lv_slider_set_type B slider LV_SLIDER_TYPE_SYMMETRICAL) ≠
        B.lv_bar_get_type (lv_slider_set_type B slider LV_SLIDER_TYPE_RANGE) ∧
    (∀ a b : Obj, B.lv_bar_get_type a = B.lv_bar_get_type b →
        lv_slider_get_type B a = lv_slider_get_type B b) := by
  obtain ⟨hns, hnc, hsc⟩ := hd
  have e0 : lv_slider_set_type B slider LV_SLIDER_TYPE_NORMAL =
      B.lv_bar_set_type slider B.LV_BAR_TYPE_NORMAL := by
    simp [lv_slider_set_type]
  have e1 : lv_slider_set_type B slider LV_SLIDER_TYPE_SYMMETRICAL =
      B.lv_bar_set_type slider B.LV_BAR_TYPE_SYMMETRICAL := by
    simp [lv_slider_set_type, LV_SLIDER_TYPE_NORMAL, LV_SLIDER_TYPE_SYMMETRICAL]
  have e2 : lv_slider_set_type B slider LV_SLIDER_TYPE_RANGE =
      B.lv_bar_set_type slider B.LV_BAR_TYPE_CUSTOM := by
    simp [lv_slider_set_type, LV_SLIDER_TYPE_NORMAL, LV_SLIDER_TYPE_SYMMETRICAL,
      LV_SLIDER_TYPE_RANGE]
  refine ⟨e0, e1, e2, ?_, ?_, ?_, ?_⟩
  · rw [e0, e1, hstore, hstore]; exact hns
  · rw [e0, e2, hstore, hstore]; exact hnc
  · rw [e1, e2, hstore, hstore]; exact hsc
  · intro a b hab
    simp [lv_slider_get_type, hab]

/-- Witness of C2 on the bar value store of the spec. -/
theorem lv_slider_set_type_mapping_witness :
    lv_slider_set_type lv_bar (lv_slider_sample 0) LV_SLIDER_TYPE_RANGE =
      lv_bar.lv_bar_set_type (lv_slider_sample 0) lv_bar.LV_BAR_TYPE_CUSTOM :=
  (lv_slider_set_type_mapping lv_bar (lv_slider_sample 0) lv_bar_type_stored
    lv_bar_types_distinct).2.2.1

/-- Claim C8, as amended.  `lv_slider_get_type` returns
`LV_SLIDER_TYPE_SYMMETRICAL` exactly when the bar type is
`LV_BAR_TYPE_SYMMETRICAL`; its result is non-zero exactly when the bar type is
`LV_BAR_TYPE_SYMMETRICAL` or `LV_BAR_TYPE_CUSTOM` (for a CUSTOM bar that is not
SYMMETRICAL it is `LV_SLIDER_TYPE_RANGE`), and zero for every other bar type. -/
theorem lv_slider_get_type_symmetrical (B : lv_bar_class Obj) (slider : Obj) :
    (lv_slider_get_type B slider = LV_SLIDER_TYPE_SYMMETRICAL ↔
      B.lv_bar_get_type slider = B.LV_BAR_TYPE_SYMMETRICAL) ∧
    (lv_slider_get_type B slider ≠ 0 ↔
      (B.lv_bar_get_type slider = B.LV_BAR_TYPE_SYMMETRICAL ∨
        B.lv_bar_get_type slider = B.LV_BAR_TYPE_CUSTOM)) ∧
    (B.lv_bar_get_type slider ≠ B.LV_BAR_TYPE_SYMMETRICAL →
      B.lv_bar_get_type slider = B.LV_BAR_TYPE_CUSTOM →
      lv_slider_get_type B slider = LV_SLIDER_TYPE_RANGE) := by
  unfold lv_slider_get_type
  simp only [LV_SLIDER_TYPE_NORMAL, LV_SLIDER_TYPE_SYMMETRICAL, LV_SLIDER_TYPE_RANGE]
  by_cases h1 : B.lv_bar_get_type slider = B.LV_BAR_TYPE_SYMMETRICAL
  · simp [h1]
  · by_cases h2 : B.lv_bar_get_type slider = B.LV_BAR_TYPE_CUSTOM
    · rw [h2] at h1
      simp [h1, h2]
    · simp [h1, h2]

/-- Counterexample to C8 as stated: on a slider whose bar type is
`LV_BAR_TYPE_CUSTOM` the result of `lv_slider_get_type` is 2, which is
non-zero, although the bar type is not `LV_BAR_TYPE_SYMMETRICAL`. -/
theorem lv_slider_get_type_not_boolean :
    ¬ (lv_slider_get_type lv_bar (lv_slider_sample LV_BAR_TYPE_CUSTOM) ≠ 0 ↔
        lv_bar.lv_bar_get_type (lv_slider_sample LV_BAR_TYPE_CUSTOM) =
          lv_bar.LV_BAR_TYPE_SYMMETRICAL) := by
  decide

/-- Claim C9.  `lv_slider_get_type` always returns one of the three slider
types: SYMMETRICAL exactly when the bar type is `LV_BAR_TYPE_SYMMETRICAL`,
RANGE exactly when it is `LV_BAR_TYPE_CUSTOM`, NORMAL for every other bar type
code.  Hence, when the bar type is one of NORMAL, SYMMETRICAL, CUSTOM, the call
`lv_slider_set_type(s, lv_slider_get_type(s))` leaves the bar type as it was
(for a bar that reports the type last stored, with three different codes). -/
theorem lv_slider_get_type_total (B : lv_bar_class Obj) (slider : Obj)
    (hstore : B.type_stored) (hd : B.types_distinct) :
    (lv_slider_get_type B slider = LV_SLIDER_TYPE_NORMAL ∨
      lv_slider_get_type B slider = LV_SLIDER_TYPE_SYMMETRICAL ∨
      lv_slider_get_type B slider = LV_SLIDER_TYPE_RANGE) ∧
    (lv_slider_get_type B slider = LV_SLIDER_TYPE_SYMMETRICAL ↔
      B.lv_bar_get_type slider = B.LV_BAR_TYPE_SYMMETRICAL) ∧
    (lv_slider_get_type B slider = LV_SLIDER_TYPE_RANGE ↔
      B.lv_bar_get_type slider = B.LV_BAR_TYPE_CUSTOM) ∧
    (lv_slider_get_type B slider = LV_SLIDER_TYPE_NORMAL ↔
      (B.lv_bar_get_type slider ≠ B.LV_BAR_TYPE_SYMMETRICAL ∧
        B.lv_bar_get_type slider ≠ B.LV_BAR_TYPE_CUSTOM)) ∧
    ((B.lv_bar_get_type slider = B.LV_BAR_TYPE_NORMAL ∨
        B.lv_bar_get_type slider = B.LV_BAR_TYPE_SYMMETRICAL ∨
        B.lv_bar_get_type slider = B.LV_BAR_TYPE_CUSTOM) →
      B.lv_bar_get_type (lv_slider_set_type B slider (lv_slider_get_type B slider)) =
        B.lv_bar_get_type slider) := by
  obtain ⟨hns, hnc, hsc⟩ := hd
  unfold lv_slider_get_type lv_slider_set_type
  simp only [LV_SLIDER_TYPE_NORMAL, LV_SLIDER_TYPE_SYMMETRICAL, LV_SLIDER_TYPE_RANGE]
  by_cases h1 : B.lv_bar_get_type slider = B.LV_BAR_TYPE_SYMMETRICAL
  · simp [h1, hsc, hstore _ _]
  · by_cases h2 : B.lv_bar_get_type slider = B.LV_BAR_TYPE_CUSTOM
    · simp [h2, hsc.symm, hstore _ _]
    · simp [h1, h2, hstore _ _]
      intro h; exact h.symm

/-- Witness of C9 on the bar value store of the spec, at a RANGE slider. -/
theorem lv_slider_get_type_total_witness :
    lv_bar.lv_bar_get_type
        (lv_slider_set_type lv_bar (lv_slider_sample LV_BAR_TYPE_CUSTOM)
          (lv_slider_get_type lv_bar (lv_slider_sample LV_BAR_TYPE_CUSTOM))) =
      lv_bar.lv_bar_get_type (lv_slider_sample LV_BAR_TYPE_CUSTOM) :=
  (lv_slider_get_type_total lv_bar (lv_slider_sample LV_BAR_TYPE_CUSTOM) lv_bar_type_stored
    lv_bar_types_distinct).2.2.2.2 (Or.inr (Or.inr rfl))

/-- Claim C10.  For every type code other than `LV_SLIDER_TYPE_NORMAL`,
`LV_SLIDER_TYPE_SYMMETRICAL` and `LV_SLIDER_TYPE_RANGE`, `lv_slider_set_type`
returns the object it was given, whatever the bar functions do (no bar call
takes part), so `lv_slider_get_type` afterwards gives the type it gave
before. -/
theorem lv_slider_set_type_invalid (B : lv_bar_class Obj) (slider : Obj) (type : Nat)
    (h0 : type ≠ LV_SLIDER_TYPE_NORMAL) (h1 : type ≠ LV_SLIDER_TYPE_SYMMETRICAL)
    (h2 : type ≠ LV_SLIDER_TYPE_RANGE) :
    lv_slider_set_type B slider type = slider ∧
    lv_slider_get_type B (lv_slider_set_type B slider type) = lv_slider_get_type B slider := by
  have h : lv_slider_set_type B slider type = slider := by
    simp [lv_slider_set_type, h0, h1, h2]
  exact ⟨h, by rw [h]⟩

/-- Witness of C10: type code 3 on a SYMMETRICAL slider, and type code 255 on
a RANGE slider. -/
theorem lv_slider_set_type_invalid_witness :
    lv_slider_set_type lv_bar (lv_slider_sample LV_BAR_TYPE_SYMMETRICAL) 3 =
        lv_slider_sample LV_BAR_TYPE_SYMMETRICAL ∧
    lv_slider_get_type lv_bar (lv_slider_set_type lv_bar (lv_slider_sample LV_BAR_TYPE_CUSTOM) 255)
      = LV_SLIDER_TYPE_RANGE :=
  ⟨(lv_slider_set_type_invalid lv_bar (lv_slider_sample LV_BAR_TYPE_SYMMETRICAL) 3
      (by decide) (by decide) (by decide)).1,
   (lv_slider_set_type_invalid lv_bar (lv_slider_sample LV_BAR_TYPE_CUSTOM) 255
      (by decide) (by decide) (by decide)).2.trans (by decide)⟩

end TypeMapping

/-! ## Delegation and reads -/

section Delegation

variable {Obj : Type}

/-- Claim C4.  Each slider setter is the corresponding bar operation on the
same object with the same arguments: `lv_slider_set_value` is
`lv_bar_set_value`, `lv_slider_set_left_value` is `lv_bar_set_start_value`,
`lv_slider_set_range` is `lv_bar_set_range` and `lv_slider_set_anim_time` is
`lv_bar_set_anim_time`, for every bar, every object state and every argument
(no check of range, order of the bounds or slider type is added). -/
theorem lv_slider_setters_delegate (B : lv_bar_class Obj) (slider : Obj) (value min max : Int)
    (anim : Bool) (anim_time : Nat) :
    lv_slider_set_value B slider value anim = B.lv_bar_set_value slider value anim ∧
    lv_slider_set_left_value B slider value anim = B.lv_bar_set_start_value slider value anim ∧
    lv_slider_set_range B slider min max = B.lv_bar_set_range slider min max ∧
    lv_slider_set_anim_time B slider anim_time = B.lv_bar_set_anim_time slider anim_time :=
  ⟨rfl, rfl, rfl, rfl⟩

/-- Claim C6.  The five getters are reads: a call of `lv_slider_get_value`,
`lv_slider_get_left_value`, `lv_slider_get_min_value`, `lv_slider_get_max_value`
or `lv_slider_get_anim_time` returns the bar's value, start value, minimum,
maximum or animation time and hands the object back as it was; and putting any
number of such calls between two parts `p` and `q` of a call sequence changes
neither the final object nor any result of `q` (the results are those of `p`,
then the repeated reading taken after `p`, then those of `q` run after `p`). -/
theorem lv_slider_getters_pure (B : lv_bar_class Obj) (slider : Obj) :
    lv_slider_call.get_value.exec B slider =
        (slider, lv_slider_ret.i16 (B.lv_bar_get_value slider)) ∧
    lv_slider_call.get_left_value.exec B slider =
        (slider, lv_slider_ret.i16 (B.lv_bar_get_start_value slider)) ∧
    lv_slider_call.get_min_value.exec B slider =
        (slider, lv_slider_ret.i16 (B.lv_bar_get_min_value slider)) ∧
    lv_slider_call.get_max_value.exec B slider =
        (slider, lv_slider_ret.i16 (B.lv_bar_get_max_value slider)) ∧
    lv_slider_call.get_anim_time.exec B slider =
        (slider, lv_slider_ret.u16 (B.lv_bar_get_anim_time slider)) ∧
    (∀ (g : lv_slider_call) (n : Nat) (p q : List lv_slider_call),
      g.is_value_getter = true →
      lv_slider_run B slider (p ++ List.replicate n g ++ q) =
        ((lv_slider_run B slider (p ++ q)).1,
          (lv_slider_run B slider p).2 ++
            List.replicate n (g.exec B (lv_slider_run B slider p).1).2 ++
            (lv_slider_run B (lv_slider_run B slider p).1 q).2)) := by
  refine ⟨rfl, rfl, rfl, rfl, rfl, ?_⟩
  intro g n p q hg
  rw [List.append_assoc, lv_slider_run_append, lv_slider_run_append,
    lv_slider_run_replicate B _ g hg n, lv_slider_run_append]
  simp

end Delegation

/-! ## Behaviour on the bar value store of the spec -/

section ValueStore

theorem lv_slider_get_type_range_iff (slider : lv_slider_t) :
    lv_slider_get_type lv_bar slider = LV_SLIDER_TYPE_RANGE ↔
      slider.type = LV_BAR_TYPE_CUSTOM := by
  simp only [lv_slider_get_type, lv_bar, LV_SLIDER_TYPE_RANGE, LV_SLIDER_TYPE_SYMMETRICAL,
    LV_SLIDER_TYPE_NORMAL, LV_BAR_TYPE_SYMMETRICAL, LV_BAR_TYPE_CUSTOM]
  split_ifs with h1 h2 <;> simp_all

end ValueStore

/-! ## Dragging -/

section Dragging

theorem lv_slider_drag_move_type (slider : lv_slider_t) (a b c : Int) :
    (lv_slider_drag_move slider a b c).type = slider.type := by
  unfold lv_slider_drag_move
  cases h : slider.value_to_set with
  | none => rfl
  | some t => cases t <;> rfl

theorem lv_slider_drag_move_target (slider : lv_slider_t) (a b c : Int) :
    (lv_slider_drag_move slider a b c).value_to_set = slider.value_to_set := by
  unfold lv_slider_drag_move
  cases h : slider.value_to_set with
  | none => simp [h]
  | some t => cases t <;> simp [h, lv_bar_set_value, lv_bar_set_start_value]

theorem lv_slider_drag_move_ordered (slider : lv_slider_t) (target : lv_slider_slot)
    (a b c : Int) (ht : slider.type = LV_BAR_TYPE_CUSTOM)
    (hd : slider.value_to_set = some target) :
    (lv_slider_drag_move slider a b c).start_value ≤
      (lv_slider_drag_move slider a b c).cur_value := by
  unfold lv_slider_drag_move
  rw [hd]
  cases target with
  | cur_value =>
    simp only [lv_bar_set_value, ht, true_and]
    split_ifs <;> omega
  | start_value =>
    simp only [lv_bar_set_start_value, ht, true_and]
    split_ifs <;> omega

theorem lv_slider_drag_moves_ordered (slider : lv_slider_t) (target : lv_slider_slot)
    (e : lv_slider_move_t) (es : List lv_slider_move_t) (ht : slider.type = LV_BAR_TYPE_CUSTOM)
    (hd : slider.value_to_set = some target) :
    (lv_slider_drag_moves slider (e :: es)).start_value ≤
      (lv_slider_drag_moves slider (e :: es)).cur_value := by
  induction es generalizing slider e with
  | nil =>
    simpa [lv_slider_drag_moves] using
      lv_slider_drag_move_ordered slider target e.track_start e.track_len e.point ht hd
  | cons e2 es ih =>
    have h := ih (lv_slider_drag_move slider e.track_start e.track_len e.point) e2
      (by rw [lv_slider_drag_move_type]; exact ht)
      (by rw [lv_slider_drag_move_target]; exact hd)
    simpa [lv_slider_drag_moves] using h

/-- Claim C7.  On a RANGE slider with a drag in progress on either knob
(`value_to_set` bound to the left or the right value), for every sequence of
drag-move events, with any track geometry and any pointer position, the left
value is at most the value after every event of the sequence, that is after
each of its non-empty initial parts. -/
theorem lv_slider_drag_no_crossing (slider : lv_slider_t) (target : lv_slider_slot)
    (events : List lv_slider_move_t) (n : Nat)
    (ht : lv_slider_get_type lv_bar slider = LV_SLIDER_TYPE_RANGE)
    (hd : slider.value_to_set = some target) (h0 : 0 < n) (hn : n ≤ events.length) :
    lv_slider_get_left_value lv_bar (lv_slider_drag_moves slider (events.take n)) ≤
      lv_slider_get_value lv_bar (lv_slider_drag_moves slider (events.take n)) := by
  rw [lv_slider_get_type_range_iff] at ht
  cases hl : events.take n with
  | nil =>
    have hlen : (events.take n).length = 0 := by rw [hl]; rfl
    rw [List.length_take] at hlen
    omega
  | cons e es => exact lv_slider_drag_moves_ordered slider target e es ht hd

/-- Witness of C7: the spec's scenario.  Range [0, 100], left value 20, value
80; dragging the left knob to the position of 90 (and then of 95) keeps the
left value at most the value, and after the first event the left value is
80. -/
theorem lv_slider_drag_no_crossing_witness :
    lv_slider_get_left_value lv_bar
        (lv_slider_drag_moves (lv_slider_scenario lv_slider_slot.start_value)
          (List.take 1 [⟨0, 100, 90⟩, ⟨0, 100, 95⟩])) ≤
      lv_slider_get_value lv_bar
        (lv_slider_drag_moves (lv_slider_scenario lv_slider_slot.start_value)
          (List.take 1 [⟨0, 100, 90⟩, ⟨0, 100, 95⟩])) ∧
    lv_slider_get_left_value lv_bar
        (lv_slider_drag_moves (lv_slider_scenario lv_slider_slot.start_value)
          (List.take 1 [⟨0, 100, 90⟩, ⟨0, 100, 95⟩])) = 80 :=
  ⟨lv_slider_drag_no_crossing (lv_slider_scenario lv_slider_slot.start_value)
      lv_slider_slot.start_value [⟨0, 100, 90⟩, ⟨0, 100, 95⟩] 1 (by decide) rfl (by decide)
      (by decide),
   by decide⟩

end Dragging

end LvSlider
